import Mathlib

/-!
Shallow embedding of the job-completion polling logic of the repository
`amazon-bedrock-data-automation-example`.

The repository has two notebooks.  Lab 1
(`src/lab_01/extract_analyze_a_movie.py`, lines 217-239) polls
`get_data_automation_status` in a bare `while` loop and then extracts the
output location from the last response.  Lab 2
(`src/lab_02/video-blueprint-with-osod.py`, lines 289-319) delegates the
polling to `bda_utils.wait_for_completion` (module
`bda_object_detection_utils`, whose body is not among the sources) and
then reads the result only after testing the final status.

Pure data is embedded as Lean structures; the polling loops are embedded
as fuel-indexed recursive functions that record the observable events
(status queries and sleeps) of a run.  Display-only calls
(`clear_output`, `print`) mutate no external state and are not recorded.
-/

/-- The `outputConfiguration` dictionary of a `get_data_automation_status`
response: the notebooks only read its `s3Uri` key (absent key = `none`). -/
structure OutputConfiguration where
  s3Uri : Option String
deriving Repr, DecidableEq

/-- The parts of a `get_data_automation_status` response that the notebooks
read: `response.get("status")`, `response.get("outputConfiguration", ...)`
and the error message lab 2 prints on failure.  Absent keys are `none`. -/
structure StatusResponse where
  status : Option String
  outputConfiguration : Option OutputConfiguration
  errorMessage : Option String
deriving Repr, DecidableEq

/-- A transport-level failure of the status-query call itself (the boto3
client raising instead of returning a response). -/
structure TransportError where
  message : String
deriving Repr, DecidableEq

/-- One observable side effect of a polling run: a status query carrying
the job handle it was issued with, or a blocking sleep of a duration in
seconds. -/
inductive Event where
  | query (handle : String)
  | sleep (seconds : Nat)
deriving Repr, DecidableEq

def Event.isQuery : Event → Bool
  | Event.query _ => true
  | Event.sleep _ => false

def Event.isSleep : Event → Bool
  | Event.query _ => false
  | Event.sleep _ => true

/-- How a run of the lab 1 loop ended: the `while` condition became false
(carrying the `status_response` variable at that point), an exception
propagated out of the loop, or the fuel ran out (the source loop has no
iteration bound, so a run on a never-terminal sequence never ends). -/
inductive Lab01Outcome where
  | finished (statusResponse : Option StatusResponse)
  | raised (e : TransportError)
  | fuelOut
deriving Repr, DecidableEq

/-- The observable trace of one run of the lab 1 polling loop. -/
structure Lab01Run where
  events : List Event
  outcome : Lab01Outcome
deriving Repr, DecidableEq

def Lab01Run.queries (r : Lab01Run) : Nat :=
  r.events.countP Event.isQuery

def Lab01Run.sleeps (r : Lab01Run) : Nat :=
  r.events.countP Event.isSleep

/-- The handles carried by the query events of a run, in order. -/
def Lab01Run.handles (r : Lab01Run) : List String :=
  r.events.filterMap fun e =>
    match e with
    | Event.query h => some h
    | Event.sleep _ => none

/-- The terminal list of lab 1, line 218:
`while status not in ["Success","ServiceError","ClientError"]`. -/
def lab01TerminalStatuses : List String := ["Success", "ServiceError", "ClientError"]

/-- The loop condition of lab 1, line 218, negated: Python
`status not in [...]` is true when `status` is `None` and when it is a
string outside the list, so the loop keeps running exactly when this
function returns `false`. -/
def statusIsTerminal (status : Option String) : Bool :=
  match status with
  | none => false
  | some s => lab01TerminalStatuses.contains s

/-- The lab 1 polling loop, lines 217-225:

```
status, status_response = None, None
while status not in ["Success","ServiceError","ClientError"]:
    status_response = bda_runtime_client.get_data_automation_status(
        invocationArn=invocation_arn)
    status = status_response.get("status")
    clear_output(wait=True)
    print(...)
    time.sleep(5)
```

`q i` is what the `i`-th `get_data_automation_status` call does: returns a
response or raises a transport error.  The recursion mirrors the `while`:
check the condition on the current `status`; if still pending, issue the
query (recording the handle it was issued with), rebind `status` and
`status_response`, sleep 5 seconds, and loop.  An exception aborts the
body before the sleep.  `fuel` bounds the recursion only; the source loop
itself is unbounded. -/
def lab01While (handle : String) (q : Nat → Except TransportError StatusResponse) :
    Nat → Nat → Option String → Option StatusResponse → Lab01Run
  | 0, _, _, _ => { events := [], outcome := Lab01Outcome.fuelOut }
  | Nat.succ fuel, i, status, statusResponse =>
    if statusIsTerminal status then
      { events := [], outcome := Lab01Outcome.finished statusResponse }
    else
      match q i with
      | Except.error e =>
        { events := [Event.query handle], outcome := Lab01Outcome.raised e }
      | Except.ok resp =>
        let rest := lab01While handle q fuel (i + 1) resp.status (some resp)
        { events := Event.query handle :: Event.sleep 5 :: rest.events,
          outcome := rest.outcome }

/-- A full run of the lab 1 loop from its initializer
`status, status_response = None, None`. -/
def lab01Poll (handle : String) (q : Nat → Except TransportError StatusResponse)
    (fuel : Nat) : Lab01Run :=
  lab01While handle q fuel 0 none none

/-- Lab 1 line 227, run unconditionally after the loop for every terminal
status: `status_response.get("outputConfiguration",{}).get("s3Uri")`. -/
def lab01OutputConfig (statusResponse : StatusResponse) : Option String :=
  (statusResponse.outputConfiguration.getD { s3Uri := none }).s3Uri

/-- Lab 1 lines 227-238: the continuation after the loop extracts the
output location and hands it straight to `utils.read_json_on_s3`,
whatever the final status was.  `read` stands for that S3 read. -/
def lab01AfterLoop {α : Type} (read : Option String → α)
    (statusResponse : StatusResponse) : α :=
  read (lab01OutputConfig statusResponse)

/-- A pending response as lab 1 sees it mid-job. -/
def inProgressResp : StatusResponse :=
  { status := some "InProgress", outputConfiguration := none, errorMessage := none }

/-- A successful final response carrying the output location. -/
def successResp : StatusResponse :=
  { status := some "Success",
    outputConfiguration := some { s3Uri := some "s3://bkt/out/job_metadata.json" },
    errorMessage := none }

/-- The concrete status sequence of the spec scenario:
`["InProgress", "InProgress", "Success"]`, then `Success` forever. -/
def scenarioQuery : Nat → Except TransportError StatusResponse := fun i =>
  Except.ok (if i < 2 then inProgressResp else successResp)

/-- A status-query operation that raises on every call. -/
def brokenQuery : Nat → Except TransportError StatusResponse := fun _ =>
  Except.error { message := "connection reset" }

/-- Lab 2 lines 300-307: `output_config_uri` is assigned (to
`status_response.get("outputConfiguration", ...).get("s3Uri")`) only inside
the `if status_response['status'] == 'Success'` branch; in the `else`
branch only messages are printed.  The result is the binding environment of
the variable after the `if`: `none` means the name was never bound. -/
def lab02OutputConfigUriEnv (statusResponse : StatusResponse) : Option (Option String) :=
  if statusResponse.status = some "Success" then
    some (lab01OutputConfig statusResponse)
  else
    none

/-- A Python runtime error reachable in the lab 2 continuation. -/
inductive PyError where
  | nameError (name : String)
deriving Repr, DecidableEq

/-- Lab 2 line 319: `config_data = bda_utils.read_json_from_s3(output_config_uri)`.
Referencing the name looks it up in the binding environment; an unbound
name raises `NameError`, otherwise the bound value is what the S3 read
receives. -/
def lab02ReadStep (env : Option (Option String)) : Except PyError (Option String) :=
  match env with
  | none => Except.error (PyError.nameError "output_config_uri")
  | some v => Except.ok v

/-! ## The lab 2 poller, modelled from the spec

Lab 2 drives its job with `bda_utils.wait_for_completion` (module
`bda_object_detection_utils`), called at lines 289-297 with
`completion_states=['Success']`, `error_states=['ClientError','ServiceError']`,
`max_iterations=40`, `delay=10`.  That module is not among the sources, so
the poller below is modelled from the specification. -/

/-- The status snapshot the spec gives the poller: a status code, an
optional output location (present only on success) and an optional error
message (present only on failure). -/
structure JobStatus where
  statusCode : String
  outputLocation : Option String
  errorMessage : Option String
deriving Repr, DecidableEq

/-- The terminal value of the poller: success with the carried output
location, failure with an error classification and message, or timeout
with the last observed status. -/
inductive PollResult where
  | success (outputLocation : Option String)
  | failure (classification : String) (message : Option String)
  | timeout (lastStatus : Option String)
deriving Repr, DecidableEq

/-- Invalid poller parameters (zero `max_iterations`, non-positive
`delay`): raised before any remote interaction, never retried. -/
structure ConfigurationError where
  message : String
deriving Repr, DecidableEq

/-- What a completed polling run did: how many status queries it issued,
how many sleeps it performed, and the terminal result. -/
structure PollRun where
  queries : Nat
  sleeps : Nat
  result : PollResult
deriving Repr, DecidableEq

/-- Modelled from the spec: the iteration body of
`BDAObjectDetectionUtils.wait_for_completion` (module
`bda_object_detection_utils`, imported by lab 2 but absent from the
sources).  Per spec section 4.1: on each iteration issue the status query;
a code in the success set returns Success with the carried output
location; a code in the failure set returns Failure with the code and the
carried message; any other code is still pending — if the iteration budget
is exhausted return Timeout with the last observed status, else sleep
`delay` and continue.  Per section 7, a transport error from the query is
surfaced immediately as Failure.  `remaining` is the number of iterations
still allowed (the caller starts it at `max_iterations ≥ 1`). -/
def pollLoop (q : Nat → Except TransportError JobStatus)
    (completion_states error_states : List String) :
    Nat → Nat → PollRun
  | 0, _ => { queries := 0, sleeps := 0, result := PollResult.timeout none }
  | Nat.succ remaining, i =>
    match q i with
    | Except.error e =>
      { queries := 1, sleeps := 0,
        result := PollResult.failure "TransportError" (some e.message) }
    | Except.ok js =>
      if completion_states.contains js.statusCode then
        { queries := 1, sleeps := 0, result := PollResult.success js.outputLocation }
      else if error_states.contains js.statusCode then
        { queries := 1, sleeps := 0,
          result := PollResult.failure js.statusCode js.errorMessage }
      else if remaining = 0 then
        { queries := 1, sleeps := 0,
          result := PollResult.timeout (some js.statusCode) }
      else
        let rest := pollLoop q completion_states error_states remaining (i + 1)
        { queries := rest.queries + 1, sleeps := rest.sleeps + 1,
          result := rest.result }

/-- Modelled from the spec: `BDAObjectDetectionUtils.wait_for_completion`.
Per spec sections 4.1 and 7, a `max_iterations` of zero or a non-positive
`delay` is a configuration error, rejected before the first status query
is issued; otherwise the loop runs with an iteration budget of
`max_iterations`. -/
def wait_for_completion (q : Nat → Except TransportError JobStatus)
    (completion_states error_states : List String)
    (max_iterations : Nat) (delay : Int) :
    Except ConfigurationError PollRun :=
  if max_iterations = 0 ∨ delay ≤ 0 then
    Except.error { message := "max_iterations and delay must be positive" }
  else
    Except.ok (pollLoop q completion_states error_states max_iterations 0)

/-- An error-terminal response lab 1 can also exit on: no
`outputConfiguration` is present on a failed job. -/
def serviceErrorResp : StatusResponse :=
  { status := some "ServiceError", outputConfiguration := none,
    errorMessage := some "internal error" }

/-- A pending `JobStatus` for the spec-modelled poller. -/
def jobPending : JobStatus :=
  { statusCode := "InProgress", outputLocation := none, errorMessage := none }

/-- A success-terminal `JobStatus` carrying its output location. -/
def jobSuccess : JobStatus :=
  { statusCode := "Success",
    outputLocation := some "s3://bkt/out/job_metadata.json",
    errorMessage := none }

/-- A status code outside both configured terminal sets, standing for a
remote state the client has never seen. -/
def jobNovel : JobStatus :=
  { statusCode := "Throttling", outputLocation := none, errorMessage := none }

/-- The spec scenario for the poller: two pending statuses, then success. -/
def specScenarioQuery : Nat → Except TransportError JobStatus := fun i =>
  Except.ok (if i < 2 then jobPending else jobSuccess)

/-- A job that never leaves the pending state. -/
def alwaysPendingQuery : Nat → Except TransportError JobStatus := fun _ =>
  Except.ok jobPending

/-- A job that only ever reports an unrecognized status code. -/
def novelQuery : Nat → Except TransportError JobStatus := fun _ =>
  Except.ok jobNovel

/-- One pending status, then the transport fails. -/
def errorOnSecondQuery : Nat → Except TransportError StatusResponse := fun i =>
  if i = 0 then Except.ok inProgressResp
  else Except.error { message := "connection reset" }

/-! ## Helper lemmas -/

lemma countP_isQuery_join_replicate (h : String) (d : Nat) :
    ∀ k, ((List.replicate k [Event.query h, Event.sleep d]).flatten).countP Event.isQuery = k := by
  intro k
  induction k with
  | zero => rfl
  | succ k ih =>
    simp [List.replicate_succ, List.flatten_cons, List.countP_append,
      List.countP_cons, ih]
    rw [show (Event.sleep d).isQuery = false from rfl,
      show (Event.query h).isQuery = true from rfl]
    simp

lemma countP_isSleep_join_replicate (h : String) (d : Nat) :
    ∀ k, ((List.replicate k [Event.query h, Event.sleep d]).flatten).countP Event.isSleep = k := by
  intro k
  induction k with
  | zero => rfl
  | succ k ih =>
    simp [List.replicate_succ, List.flatten_cons, List.countP_append,
      List.countP_cons, ih]
    rw [show (Event.sleep d).isSleep = true from rfl,
      show (Event.query h).isSleep = false from rfl]
    simp

/-- If the first terminal status appears at 0-based offset `k` of the query
stream, the lab 1 loop runs `k + 1` full iterations — each one query then
one sleep, the terminal iteration included — and finishes holding the
terminal response. -/
lemma lab01While_first_terminal (handle : String)
    (q : Nat → Except TransportError StatusResponse) :
    ∀ (k fuel i : Nat) (st : Option String) (sr : Option StatusResponse)
      (r : StatusResponse),
      statusIsTerminal st = false → k + 1 < fuel →
      (∀ j, j < k → ∃ resp, q (i + j) = Except.ok resp ∧
        statusIsTerminal resp.status = false) →
      q (i + k) = Except.ok r → statusIsTerminal r.status = true →
      lab01While handle q fuel i st sr =
        { events := (List.replicate (k + 1) [Event.query handle, Event.sleep 5]).flatten,
          outcome := Lab01Outcome.finished (some r) } := by
  intro k
  induction k with
  | zero =>
    intro fuel i st sr r hst hfuel _ hq hterm
    simp only [Nat.add_zero] at hq
    cases fuel with
    | zero => omega
    | succ f =>
      cases f with
      | zero => omega
      | succ f2 =>
        simp only [lab01While, hst, hq, Bool.false_eq_true, if_false, hterm, if_true]
        simp [List.flatten]
  | succ k ih =>
    intro fuel i st sr r hst hfuel hpend hq hterm
    cases fuel with
    | zero => omega
    | succ f =>
      obtain ⟨r0, hq0, hr0⟩ := hpend 0 (Nat.succ_pos k)
      simp only [Nat.add_zero] at hq0
      have hq1 : q ((i + 1) + k) = Except.ok r := by
        have hidx : (i + 1) + k = i + (k + 1) := by omega
        rw [hidx]; exact hq
      have hpend1 : ∀ j, j < k → ∃ resp, q ((i + 1) + j) = Except.ok resp ∧
          statusIsTerminal resp.status = false := by
        intro j hj
        have hidx : (i + 1) + j = i + (j + 1) := by omega
        rw [hidx]
        exact hpend (j + 1) (by omega)
      have step := ih f (i + 1) r0.status (some r0) r hr0 (by omega) hpend1 hq1 hterm
      simp only [lab01While, hst, hq0, Bool.false_eq_true, if_false]
      rw [step]
      simp [List.replicate_succ, List.flatten_cons]

/-- If the status-query call raises on its `n`-th attempt (0-based offset
`n`, every earlier attempt returning a pending status), the lab 1 loop
records `n` full iterations, issues the failing query, and the exception
propagates: no sleep follows the failing query. -/
lemma lab01While_error (handle : String)
    (q : Nat → Except TransportError StatusResponse) :
    ∀ (n fuel i : Nat) (st : Option String) (sr : Option StatusResponse)
      (e : TransportError),
      statusIsTerminal st = false → n < fuel →
      (∀ j, j < n → ∃ resp, q (i + j) = Except.ok resp ∧
        statusIsTerminal resp.status = false) →
      q (i + n) = Except.error e →
      lab01While handle q fuel i st sr =
        { events := (List.replicate n [Event.query handle, Event.sleep 5]).flatten
            ++ [Event.query handle],
          outcome := Lab01Outcome.raised e } := by
  intro n
  induction n with
  | zero =>
    intro fuel i st sr e hst hfuel _ hq
    simp only [Nat.add_zero] at hq
    cases fuel with
    | zero => omega
    | succ f =>
      simp only [lab01While, hst, hq, Bool.false_eq_true, if_false]
      simp
  | succ n ih =>
    intro fuel i st sr e hst hfuel hpend hq
    cases fuel with
    | zero => omega
    | succ f =>
      obtain ⟨r0, hq0, hr0⟩ := hpend 0 (Nat.succ_pos n)
      simp only [Nat.add_zero] at hq0
      have hq1 : q ((i + 1) + n) = Except.error e := by
        have hidx : (i + 1) + n = i + (n + 1) := by omega
        rw [hidx]; exact hq
      have hpend1 : ∀ j, j < n → ∃ resp, q ((i + 1) + j) = Except.ok resp ∧
          statusIsTerminal resp.status = false := by
        intro j hj
        have hidx : (i + 1) + j = i + (j + 1) := by omega
        rw [hidx]
        exact hpend (j + 1) (by omega)
      have step := ih f (i + 1) r0.status (some r0) e hr0 (by omega) hpend1 hq1
      simp only [lab01While, hst, hq0, Bool.false_eq_true, if_false]
      rw [step]
      simp [List.replicate_succ, List.flatten_cons]

/-- Every query event of a lab 1 run carries the handle the loop was
invoked with. -/
lemma lab01While_handles (handle : String)
    (q : Nat → Except TransportError StatusResponse) :
    ∀ (fuel i : Nat) (st : Option String) (sr : Option StatusResponse)
      (h : String),
      h ∈ (lab01While handle q fuel i st sr).handles → h = handle := by
  intro fuel
  induction fuel with
  | zero =>
    intro i st sr h hmem
    simp [lab01While, Lab01Run.handles] at hmem
  | succ fuel ih =>
    intro i st sr h hmem
    by_cases hst : statusIsTerminal st
    · simp [lab01While, hst, Lab01Run.handles] at hmem
    · rcases hqi : q i with e | resp
      · simp [lab01While, hst, hqi, Lab01Run.handles] at hmem
        exact hmem
      · simp only [lab01While, hst, Bool.false_eq_true, if_false, hqi,
          Lab01Run.handles, List.filterMap] at hmem
        simp at hmem
        rcases hmem with hmem | hmem
        · exact hmem
        · exact ih (i + 1) resp.status (some resp) h
            (by simpa [Lab01Run.handles] using hmem)

/-- Invariant of the lab 1 loop: starting from a state where the `status`
variable is `None` or matches the held response, a normal exit hands back
a response whose status string is in the terminal list. -/
lemma lab01While_finished_terminal (handle : String)
    (q : Nat → Except TransportError StatusResponse) :
    ∀ (fuel i : Nat) (st : Option String) (sr : Option StatusResponse)
      (r : Option StatusResponse),
      (st = none ∨ ∃ resp, sr = some resp ∧ resp.status = st) →
      (lab01While handle q fuel i st sr).outcome = Lab01Outcome.finished r →
      ∃ resp s, r = some resp ∧ resp.status = some s ∧
        lab01TerminalStatuses.contains s = true := by
  intro fuel
  induction fuel with
  | zero =>
    intro i st sr r _ hout
    simp [lab01While] at hout
  | succ fuel ih =>
    intro i st sr r hinv hout
    by_cases hst : statusIsTerminal st
    · simp only [lab01While, hst, if_true,
        Lab01Outcome.finished.injEq] at hout
      rcases hinv with hnone | ⟨resp, hsr, hresp⟩
      · rw [hnone] at hst
        simp [statusIsTerminal] at hst
      · rcases st with _ | s
        · simp [statusIsTerminal] at hst
        · refine ⟨resp, s, ?_, hresp, ?_⟩
          · rw [← hout, hsr]
          · simpa [statusIsTerminal] using hst
    · rcases hqi : q i with e | resp
      · simp [lab01While, hst, hqi] at hout
      · simp only [lab01While, hst, Bool.false_eq_true, if_false, hqi] at hout
        exact ih (i + 1) resp.status (some resp) r
          (Or.inr ⟨resp, rfl, rfl⟩) hout

/-- With any fuel at all, the lab 1 loop issues at least one query: the
initial `status = None` is never in the terminal list. -/
lemma lab01Poll_queries_pos (handle : String)
    (q : Nat → Except TransportError StatusResponse) (fuel : Nat)
    (hfuel : 1 ≤ fuel) : 1 ≤ (lab01Poll handle q fuel).queries := by
  cases fuel with
  | zero => omega
  | succ f =>
    show 1 ≤ (lab01While handle q (f + 1) 0 none none).queries
    rcases hq0 : q 0 with e | resp
    · simp [lab01While, statusIsTerminal, hq0, Lab01Run.queries, Event.isQuery]
    · simp [lab01While, statusIsTerminal, hq0, Lab01Run.queries,
        List.countP_cons, Event.isQuery]

/-- If the first terminal code of the stream sits at 0-based offset `k`
within the iteration budget, the spec-modelled loop issues `k + 1`
queries, sleeps `k` times, and classifies the `k`-th response: success
set first, then failure set. -/
lemma pollLoop_first_terminal (q : Nat → Except TransportError JobStatus)
    (cs es : List String) :
    ∀ (k rem i : Nat) (js : JobStatus),
      k < rem →
      (∀ j, j < k → ∃ r, q (i + j) = Except.ok r ∧
        cs.contains r.statusCode = false ∧ es.contains r.statusCode = false) →
      q (i + k) = Except.ok js →
      (cs.contains js.statusCode = true ∨ es.contains js.statusCode = true) →
      pollLoop q cs es rem i =
        { queries := k + 1, sleeps := k,
          result :=
            if cs.contains js.statusCode then PollResult.success js.outputLocation
            else PollResult.failure js.statusCode js.errorMessage } := by
  intro k
  induction k with
  | zero =>
    intro rem i js hrem _ hq hterm
    simp only [Nat.add_zero] at hq
    cases rem with
    | zero => omega
    | succ r =>
      simp only [pollLoop, hq]
      rcases hterm with hcs | hes
      · rw [hcs]
        simp
      · rcases hcsv : cs.contains js.statusCode with _ | _
        · rw [hes]
          simp
        · simp
  | succ k ih =>
    intro rem i js hrem hpend hq hterm
    cases rem with
    | zero => omega
    | succ r =>
      obtain ⟨r0, hq0, hcs0, hes0⟩ := hpend 0 (Nat.succ_pos k)
      simp only [Nat.add_zero] at hq0
      have hq1 : q ((i + 1) + k) = Except.ok js := by
        have hidx : (i + 1) + k = i + (k + 1) := by omega
        rw [hidx]; exact hq
      have hpend1 : ∀ j, j < k → ∃ r, q ((i + 1) + j) = Except.ok r ∧
          cs.contains r.statusCode = false ∧ es.contains r.statusCode = false := by
        intro j hj
        have hidx : (i + 1) + j = i + (j + 1) := by omega
        rw [hidx]
        exact hpend (j + 1) (by omega)
      have hr0 : r ≠ 0 := by omega
      have step := ih r (i + 1) js (by omega) hpend1 hq1 hterm
      simp only [pollLoop, hq0, hcs0, hes0, Bool.false_eq_true, if_false, hr0]
      rw [step]

/-- If every one of the first `n` responses is pending (neither in the
success set nor in the failure set), the spec-modelled loop with budget
`n` issues exactly `n` queries and `n - 1` sleeps and times out carrying
the last observed status. -/
lemma pollLoop_all_pending (q : Nat → Except TransportError JobStatus)
    (cs es : List String) :
    ∀ (n i : Nat) (js : JobStatus),
      1 ≤ n →
      (∀ j, j < n → ∃ r, q (i + j) = Except.ok r ∧
        cs.contains r.statusCode = false ∧ es.contains r.statusCode = false) →
      q (i + (n - 1)) = Except.ok js →
      pollLoop q cs es n i =
        { queries := n, sleeps := n - 1,
          result := PollResult.timeout (some js.statusCode) } := by
  intro n
  induction n with
  | zero => omega
  | succ n ih =>
    intro i js hn hpend hq
    obtain ⟨r0, hq0, hcs0, hes0⟩ := hpend 0 (Nat.succ_pos n)
    simp only [Nat.add_zero] at hq0
    rcases Nat.eq_zero_or_pos n with hn0 | hnpos
    · subst hn0
      have hq2 : q i = Except.ok js := by simpa using hq
      have hrj : r0 = js := by
        rw [hq0] at hq2
        injection hq2
      subst hrj
      simp only [pollLoop, hq0]
      rw [hcs0, hes0]
      simp
    · have hq1 : q ((i + 1) + (n - 1)) = Except.ok js := by
        have hidx : (i + 1) + (n - 1) = i + (n + 1 - 1) := by omega
        rw [hidx]; exact hq
      have hpend1 : ∀ j, j < n → ∃ r, q ((i + 1) + j) = Except.ok r ∧
          cs.contains r.statusCode = false ∧ es.contains r.statusCode = false := by
        intro j hj
        have hidx : (i + 1) + j = i + (j + 1) := by omega
        rw [hidx]
        exact hpend (j + 1) (by omega)
      have step := ih (i + 1) js hnpos hpend1 hq1
      have hn0 : ¬ n = 0 := by omega
      simp only [pollLoop, hq0]
      rw [hcs0, hes0]
      simp only [Bool.false_eq_true, if_false, hn0]
      rw [step]
      have hsl : n - 1 + 1 = n + 1 - 1 := by omega
      rw [hsl]

/-! ## Claims -/

/-- Claim C1: for every status-query sequence whose first terminal code (a
member of the success set or the failure set) appears at position k with
k ≤ max_iterations, the poller performs exactly k status queries — never
fewer, never more — and returns the corresponding terminal PollResult:
Success carrying the output location from that k-th status when the code
is in the success set, Failure carrying the error message and status code
when it is in the failure set. -/
theorem claim_C1_first_terminal_exact_queries
    (q : Nat → Except TransportError JobStatus) (cs es : List String)
    (max_iterations k : Nat) (delay : Int) (js : JobStatus)
    (hk : 1 ≤ k) (hkn : k ≤ max_iterations) (hd : 0 < delay)
    (hpend : ∀ j, j + 1 < k → ∃ r, q j = Except.ok r ∧
      cs.contains r.statusCode = false ∧ es.contains r.statusCode = false)
    (hq : q (k - 1) = Except.ok js)
    (hterm : cs.contains js.statusCode = true ∨ es.contains js.statusCode = true) :
    wait_for_completion q cs es max_iterations delay =
      Except.ok
        { queries := k, sleeps := k - 1,
          result :=
            if cs.contains js.statusCode then PollResult.success js.outputLocation
            else PollResult.failure js.statusCode js.errorMessage } := by
  have hn : ¬ (max_iterations = 0 ∨ delay ≤ 0) := by
    push_neg
    exact ⟨by omega, by omega⟩
  have h0 := pollLoop_first_terminal q cs es (k - 1) max_iterations 0 js (by omega)
    (fun j hj => by simpa using hpend j (by omega))
    (by simpa using hq) hterm
  unfold wait_for_completion
  rw [if_neg hn, h0]
  have hk1 : k - 1 + 1 = k := by omega
  rw [hk1]

/-- Witness for C1 on the spec scenario: first success at position 3 with
a budget of 40 gives exactly 3 queries, 2 sleeps and Success with the
third status's output location. -/
theorem claim_C1_witness :
    wait_for_completion specScenarioQuery ["Success"] ["ClientError", "ServiceError"] 40 10 =
      Except.ok
        { queries := 3, sleeps := 2,
          result := PollResult.success (some "s3://bkt/out/job_metadata.json") } := by
  have h := claim_C1_first_terminal_exact_queries specScenarioQuery
    ["Success"] ["ClientError", "ServiceError"] 40 3 10 jobSuccess
    (by omega) (by omega) (by omega)
    (fun j hj => ⟨jobPending, by
      have hj2 : j < 2 := by omega
      simp [specScenarioQuery, hj2], rfl, rfl⟩)
    rfl (Or.inl rfl)
  rw [h]
  rfl

/-- Claim C2: for every status-query sequence with no success-set or
failure-set code within the first max_iterations queries, the poller
still terminates: it performs exactly max_iterations queries and
(max_iterations - 1) sleeps and returns Timeout carrying the last
observed status; and in all cases the poller terminates with a PollResult
or a configuration error. -/
theorem claim_C2_timeout_and_totality :
    (∀ (q : Nat → Except TransportError JobStatus) (cs es : List String)
      (n : Nat) (d : Int) (js : JobStatus),
      1 ≤ n → 0 < d →
      (∀ j, j < n → ∃ r, q j = Except.ok r ∧
        cs.contains r.statusCode = false ∧ es.contains r.statusCode = false) →
      q (n - 1) = Except.ok js →
      wait_for_completion q cs es n d =
        Except.ok
          { queries := n, sleeps := n - 1,
            result := PollResult.timeout (some js.statusCode) }) ∧
    (∀ (q : Nat → Except TransportError JobStatus) (cs es : List String)
      (n : Nat) (d : Int),
      (∃ c, wait_for_completion q cs es n d = Except.error c) ∨
      (∃ run, wait_for_completion q cs es n d = Except.ok run)) := by
  constructor
  · intro q cs es n d js hn hd hpend hq
    have h0 := pollLoop_all_pending q cs es n 0 js hn
      (fun j hj => by simpa using hpend j hj) (by simpa using hq)
    have hcond : ¬ (n = 0 ∨ d ≤ 0) := by
      push_neg
      exact ⟨by omega, by omega⟩
    unfold wait_for_completion
    rw [if_neg hcond, h0]
  · intro q cs es n d
    unfold wait_for_completion
    by_cases hcond : n = 0 ∨ d ≤ 0
    · rw [if_pos hcond]
      exact Or.inl ⟨_, rfl⟩
    · rw [if_neg hcond]
      exact Or.inr ⟨_, rfl⟩

/-- Witness for C2: a job that stays pending for a budget of 3 is queried
exactly 3 times, slept through twice, and times out on the last pending
status. -/
theorem claim_C2_witness :
    wait_for_completion alwaysPendingQuery ["Success"] ["ClientError", "ServiceError"] 3 10 =
      Except.ok
        { queries := 3, sleeps := 2,
          result := PollResult.timeout (some "InProgress") } := by
  have h := claim_C2_timeout_and_totality.1 alwaysPendingQuery
    ["Success"] ["ClientError", "ServiceError"] 3 10 jobPending
    (by omega) (by omega)
    (fun j hj => ⟨jobPending, rfl, rfl, rfl⟩) rfl
  rw [h]
  rfl

/-- Claim C3 counterexample: on the spec's own concrete scenario
(statuses InProgress, InProgress, Success) the lab 1 loop performs 3
queries but 3 sleeps of 5 — `time.sleep(5)` runs at the end of every
iteration, including the one that observed the terminal status — so the
claimed count of 2 sleeps, with no sleep after the terminal query, is
false. -/
theorem claim_C3_counterexample :
    (lab01Poll "arn-1" scenarioQuery 10).queries = 3 ∧
    (lab01Poll "arn-1" scenarioQuery 10).sleeps = 3 ∧
    ¬ (lab01Poll "arn-1" scenarioQuery 10).sleeps = 2 ∧
    (lab01Poll "arn-1" scenarioQuery 10).events =
      [Event.query "arn-1", Event.sleep 5, Event.query "arn-1", Event.sleep 5,
       Event.query "arn-1", Event.sleep 5] ∧
    (lab01Poll "arn-1" scenarioQuery 10).outcome =
      Lab01Outcome.finished (some successResp) := by
  refine ⟨rfl, rfl, by decide, rfl, rfl⟩

/-- Claim C3 (amended): every status query of the lab 1 loop — the one
that observed a terminal status included — is followed by exactly one
sleep of 5 seconds: when the first terminal status sits at (1-based)
position k of the stream, the event trace is exactly k repetitions of
query-then-sleep; in the spec's scenario the loop performs 3 queries and
3 sleeps of 5 and finishes on the Success response.  Queries and sleeps
are the only effects recorded; the loop mutates no external state. -/
theorem claim_C3_query_then_sleep_every_iteration
    (handle : String) (q : Nat → Except TransportError StatusResponse)
    (k fuel : Nat) (r : StatusResponse)
    (hk : 1 ≤ k) (hfuel : k < fuel)
    (hpend : ∀ j, j + 1 < k → ∃ resp, q j = Except.ok resp ∧
      statusIsTerminal resp.status = false)
    (hq : q (k - 1) = Except.ok r) (hterm : statusIsTerminal r.status = true) :
    (lab01Poll handle q fuel).events =
      (List.replicate k [Event.query handle, Event.sleep 5]).flatten ∧
    (lab01Poll handle q fuel).queries = k ∧
    (lab01Poll handle q fuel).sleeps = k ∧
    (lab01Poll handle q fuel).outcome = Lab01Outcome.finished (some r) := by
  have h0 := lab01While_first_terminal handle q (k - 1) fuel 0 none none r rfl (by omega)
    (fun j hj => by simpa using hpend j (by omega))
    (by simpa using hq) hterm
  have hk1 : k - 1 + 1 = k := by omega
  rw [hk1] at h0
  unfold lab01Poll
  rw [h0]
  exact ⟨rfl, countP_isQuery_join_replicate handle 5 k,
    countP_isSleep_join_replicate handle 5 k, rfl⟩

/-- Witness for the amended C3 on the spec scenario: first terminal
status at position 3 gives 3 queries and 3 sleeps of 5. -/
theorem claim_C3_witness :
    (lab01Poll "arn-1" scenarioQuery 10).events =
      (List.replicate 3 [Event.query "arn-1", Event.sleep 5]).flatten ∧
    (lab01Poll "arn-1" scenarioQuery 10).queries = 3 ∧
    (lab01Poll "arn-1" scenarioQuery 10).sleeps = 3 ∧
    (lab01Poll "arn-1" scenarioQuery 10).outcome =
      Lab01Outcome.finished (some successResp) :=
  claim_C3_query_then_sleep_every_iteration "arn-1" scenarioQuery 3 10 successResp
    (by omega) (by omega)
    (fun j hj => ⟨inProgressResp, by
      have hj2 : j < 2 := by omega
      simp [scenarioQuery, hj2], rfl⟩)
    rfl rfl

/-- Claim C4 counterexample: when the very first status query raises a
transport error, the lab 1 loop does not return a structured Failure
outcome — the exception propagates out of the loop after exactly 1 query
and 0 sleeps. -/
theorem claim_C4_counterexample :
    (lab01Poll "arn-1" brokenQuery 10).outcome =
      Lab01Outcome.raised { message := "connection reset" } ∧
    (lab01Poll "arn-1" brokenQuery 10).queries = 1 ∧
    (lab01Poll "arn-1" brokenQuery 10).sleeps = 0 := by
  refine ⟨rfl, rfl, rfl⟩

/-- Claim C4 (amended): if the status-query operation raises a
TransportError on the i-th query, the lab 1 loop stops immediately after
exactly i queries and i - 1 sleeps — no further sleep and no further
query — but the error propagates as an exception past the loop instead of
being returned as a structured Failure result; it is not treated as a
pending status. -/
theorem claim_C4_transport_error_propagates
    (handle : String) (q : Nat → Except TransportError StatusResponse)
    (i fuel : Nat) (e : TransportError)
    (hi : 1 ≤ i) (hfuel : i ≤ fuel)
    (hpend : ∀ j, j + 1 < i → ∃ resp, q j = Except.ok resp ∧
      statusIsTerminal resp.status = false)
    (hq : q (i - 1) = Except.error e) :
    (lab01Poll handle q fuel).outcome = Lab01Outcome.raised e ∧
    (lab01Poll handle q fuel).queries = i ∧
    (lab01Poll handle q fuel).sleeps = i - 1 := by
  have h0 := lab01While_error handle q (i - 1) fuel 0 none none e rfl (by omega)
    (fun j hj => by simpa using hpend j (by omega))
    (by simpa using hq)
  unfold lab01Poll
  rw [h0]
  refine ⟨rfl, ?_, ?_⟩
  · show ((List.replicate (i - 1) [Event.query handle, Event.sleep 5]).flatten
      ++ [Event.query handle]).countP Event.isQuery = i
    rw [List.countP_append, countP_isQuery_join_replicate]
    have h1 : List.countP Event.isQuery [Event.query handle] = 1 := rfl
    rw [h1]
    omega
  · show ((List.replicate (i - 1) [Event.query handle, Event.sleep 5]).flatten
      ++ [Event.query handle]).countP Event.isSleep = i - 1
    rw [List.countP_append, countP_isSleep_join_replicate]
    have h1 : List.countP Event.isSleep [Event.query handle] = 0 := rfl
    rw [h1]
    omega

/-- Witness for the amended C4: a transport error on the second query of
the spec scenario aborts the loop after 2 queries and 1 sleep. -/
theorem claim_C4_witness :
    (lab01Poll "arn-1" errorOnSecondQuery 10).outcome =
      Lab01Outcome.raised { message := "connection reset" } ∧
    (lab01Poll "arn-1" errorOnSecondQuery 10).queries = 2 ∧
    (lab01Poll "arn-1" errorOnSecondQuery 10).sleeps = 1 :=
  claim_C4_transport_error_propagates "arn-1" errorOnSecondQuery 2 10
    { message := "connection reset" } (by omega) (by omega)
    (fun j hj => ⟨inProgressResp, by
      have hj0 : j = 0 := by omega
      subst hj0
      rfl, rfl⟩)
    rfl

/-- Claim C5: invoking the poller with max_iterations = 0 or delay ≤ 0
raises a ConfigurationError before the first status query is issued: the
outcome is the configuration error for every status-query operation
whatsoever (so zero queries and zero sleeps are performed), and no retry
happens. -/
theorem claim_C5_configuration_error_before_first_query
    (q : Nat → Except TransportError JobStatus) (cs es : List String)
    (n : Nat) (d : Int) (h : n = 0 ∨ d ≤ 0) :
    wait_for_completion q cs es n d =
      Except.error { message := "max_iterations and delay must be positive" } ∧
    ∀ q2 : Nat → Except TransportError JobStatus,
      wait_for_completion q2 cs es n d = wait_for_completion q cs es n d := by
  constructor
  · unfold wait_for_completion
    rw [if_pos h]
  · intro q2
    unfold wait_for_completion
    rw [if_pos h, if_pos h]

/-- Witness for C5: a zero iteration budget is rejected outright. -/
theorem claim_C5_witness :
    wait_for_completion alwaysPendingQuery ["Success"] ["ClientError", "ServiceError"] 0 10 =
      Except.error { message := "max_iterations and delay must be positive" } :=
  (claim_C5_configuration_error_before_first_query alwaysPendingQuery
    ["Success"] ["ClientError", "ServiceError"] 0 10 (Or.inl rfl)).1

/-- Claim C6: a status code in neither the success set nor the failure set
— including one never seen before — is treated as still pending: with
budget remaining the poller does not error but sleeps once and queries
again (one query and one sleep on top of the continuation run), and with
the budget exhausted it returns Timeout carrying that last observed
status. -/
theorem claim_C6_unrecognized_status_still_pending
    (q : Nat → Except TransportError JobStatus) (cs es : List String)
    (i rem : Nat) (js : JobStatus)
    (hq : q i = Except.ok js)
    (hcs : cs.contains js.statusCode = false)
    (hes : es.contains js.statusCode = false) :
    (pollLoop q cs es (rem + 2) i =
      { queries := (pollLoop q cs es (rem + 1) (i + 1)).queries + 1,
        sleeps := (pollLoop q cs es (rem + 1) (i + 1)).sleeps + 1,
        result := (pollLoop q cs es (rem + 1) (i + 1)).result }) ∧
    pollLoop q cs es 1 i =
      { queries := 1, sleeps := 0,
        result := PollResult.timeout (some js.statusCode) } := by
  constructor
  · simp only [pollLoop, hq]
    rw [hcs, hes]
    simp
  · simp only [pollLoop, hq]
    rw [hcs, hes]
    simp

/-- Witness for C6 on a status code outside both configured sets
("Throttling"): the loop continues while budget remains and times out on
that status when it runs out. -/
theorem claim_C6_witness :
    (pollLoop novelQuery ["Success"] ["ClientError", "ServiceError"] 3 0 =
      { queries :=
          (pollLoop novelQuery ["Success"] ["ClientError", "ServiceError"] 2 1).queries + 1,
        sleeps :=
          (pollLoop novelQuery ["Success"] ["ClientError", "ServiceError"] 2 1).sleeps + 1,
        result :=
          (pollLoop novelQuery ["Success"] ["ClientError", "ServiceError"] 2 1).result }) ∧
    pollLoop novelQuery ["Success"] ["ClientError", "ServiceError"] 1 0 =
      { queries := 1, sleeps := 0,
        result := PollResult.timeout (some "Throttling") } :=
  claim_C6_unrecognized_status_still_pending novelQuery
    ["Success"] ["ClientError", "ServiceError"] 0 1 jobNovel rfl rfl rfl

/-- Claim C7: every status query of a lab 1 polling run is issued with
the one handle (`invocation_arn`) the run was invoked with: any handle
appearing in the query trace equals that handle.  The handle itself is an
immutable input of the run. -/
theorem claim_C7_single_job_handle
    (handle : String) (q : Nat → Except TransportError StatusResponse)
    (fuel : Nat) (h : String)
    (hmem : h ∈ (lab01Poll handle q fuel).handles) : h = handle :=
  lab01While_handles handle q fuel 0 none none h hmem

/-- Witness for C7: the scenario run queries with the invocation handle
three times, and each recorded handle is that handle. -/
theorem claim_C7_witness :
    (lab01Poll "arn-1" scenarioQuery 10).handles = ["arn-1", "arn-1", "arn-1"] ∧
    "arn-1" = "arn-1" :=
  ⟨rfl, claim_C7_single_job_handle "arn-1" scenarioQuery 10 "arn-1" (by decide)⟩

/-- Claim C8 (implicit): the lab 1 loop always performs at least one
status query — `status` starts as `None`, which is never in the terminal
list — and whenever the loop exits normally the last-seen status is one
of Success, ServiceError, ClientError: the loop cannot exit while the job
is pending. -/
theorem claim_C8_at_least_one_query_and_terminal_exit
    (handle : String) (q : Nat → Except TransportError StatusResponse)
    (fuel : Nat) (hfuel : 1 ≤ fuel) :
    1 ≤ (lab01Poll handle q fuel).queries ∧
    ∀ r, (lab01Poll handle q fuel).outcome = Lab01Outcome.finished r →
      ∃ resp s, r = some resp ∧ resp.status = some s ∧
        lab01TerminalStatuses.contains s = true :=
  ⟨lab01Poll_queries_pos handle q fuel hfuel,
   fun r hr =>
     lab01While_finished_terminal handle q fuel 0 none none r (Or.inl rfl) hr⟩

/-- Witness for C8 on the scenario run: at least one query is issued and
the normal exit holds a response whose status is in the terminal list. -/
theorem claim_C8_witness :
    1 ≤ (lab01Poll "arn-1" scenarioQuery 10).queries ∧
    ∃ resp s, (some successResp : Option StatusResponse) = some resp ∧
      resp.status = some s ∧ lab01TerminalStatuses.contains s = true :=
  ⟨(claim_C8_at_least_one_query_and_terminal_exit "arn-1" scenarioQuery 10 (by omega)).1,
   (claim_C8_at_least_one_query_and_terminal_exit "arn-1" scenarioQuery 10 (by omega)).2
     (some successResp) rfl⟩

/-- Claim C9 (implicit): after the lab 1 loop, the continuation extracts
`outputConfiguration.s3Uri` from the final response by the same function
for every status value — a ServiceError or ClientError run takes the very
extraction path a Success run takes — and when the error response carries
no `outputConfiguration` the extraction yields `none` via the `.get`
default, on which the subsequent S3 read is then attempted. -/
theorem claim_C9_result_extraction_ignores_status {α : Type}
    (read : Option String → α) (oc : Option OutputConfiguration)
    (em : Option String) (s1 s2 : Option String) (r : StatusResponse)
    (hoc : r.outputConfiguration = none) :
    lab01AfterLoop read
        { status := s1, outputConfiguration := oc, errorMessage := em } =
      lab01AfterLoop read
        { status := s2, outputConfiguration := oc, errorMessage := em } ∧
    lab01OutputConfig r = none ∧
    lab01AfterLoop read r = read none := by
  refine ⟨rfl, ?_, ?_⟩
  · simp [lab01OutputConfig, hoc]
  · simp [lab01AfterLoop, lab01OutputConfig, hoc]

/-- Witness for C9: a run ending in ServiceError reaches the S3 read with
argument `none`, through the same extraction as a Success ending. -/
theorem claim_C9_witness :
    lab01AfterLoop Option.isSome
        { status := some "ServiceError", outputConfiguration := none,
          errorMessage := some "internal error" } =
      lab01AfterLoop Option.isSome
        { status := some "Success", outputConfiguration := none,
          errorMessage := some "internal error" } ∧
    lab01OutputConfig serviceErrorResp = none ∧
    lab01AfterLoop Option.isSome serviceErrorResp =
      Option.isSome (none : Option String) :=
  claim_C9_result_extraction_ignores_status Option.isSome none
    (some "internal error") (some "ServiceError") (some "Success")
    serviceErrorResp rfl

/-- Claim C10 (implicit): in lab 2, `output_config_uri` is bound only in
the branch where the final status equals Success; for every run whose
final status is anything else the result-retrieval step references an
unbound name and fails with a NameError, and only on Success does it
receive the extracted URI. -/
theorem claim_C10_read_undefined_unless_success (r : StatusResponse) :
    (¬ r.status = some "Success" →
      lab02ReadStep (lab02OutputConfigUriEnv r) =
        Except.error (PyError.nameError "output_config_uri")) ∧
    (r.status = some "Success" →
      lab02ReadStep (lab02OutputConfigUriEnv r) =
        Except.ok (lab01OutputConfig r)) := by
  constructor
  · intro h
    simp [lab02OutputConfigUriEnv, h, lab02ReadStep]
  · intro h
    simp [lab02OutputConfigUriEnv, h, lab02ReadStep]

/-- Witness for C10: a ServiceError ending makes the read step fail with
NameError on `output_config_uri`; a Success ending hands the read the
extracted URI. -/
theorem claim_C10_witness :
    lab02ReadStep (lab02OutputConfigUriEnv serviceErrorResp) =
      Except.error (PyError.nameError "output_config_uri") ∧
    lab02ReadStep (lab02OutputConfigUriEnv successResp) =
      Except.ok (some "s3://bkt/out/job_metadata.json") :=
  ⟨(claim_C10_read_undefined_unless_success serviceErrorResp).1 (by decide),
   (claim_C10_read_undefined_unless_success successResp).2 rfl⟩
